import Mathlib

/-!
Verification of the ST7789 SPI display driver (st7789.h / st7789.cpp and the
demo main.cpp).

The driver is embedded shallowly.  Every method of the C++ class `ST7789`
becomes a Lean function that threads the object state explicitly
(`ST7789 → args → ST7789 × List Event`) and returns the trace of hardware
side effects it performs, in order: GPIO pin writes, blocking SPI transfers,
millisecond delays and the one-time SPI/GPIO configuration calls.

C integer semantics are modelled explicitly on `Nat`/`Int`:
`uint8_t`/`uint16_t` parameter passing truncates with `% 256` / `% 65536`;
arithmetic such as `x + w` and `x + w - 1` inside `fillRect` happens after
integral promotion to `int`, so it is exact, and only the conversion of the
resulting `int` back to a `uint16_t` argument of `setWindow` reduces
modulo 2^16 (function `u16ofInt`, which also handles negative values the way
C conversion to an unsigned type does).
-/

/-- One observable hardware side effect of the driver: a call into the
pico-sdk GPIO/SPI/timer primitives. -/
inductive Event where
  | spiInitEv (spi baud : Nat)
  | gpioSetFunction (pin : Nat)
  | gpioInitEv (pin : Nat)
  | gpioSetDir (pin : Nat)
  | gpioPut (pin val : Nat)
  | spiWrite (bytes : List Nat)
  | sleepMs (ms : Nat)
  deriving DecidableEq, Repr

/-- Truncation to `uint8_t`, as in C conversion to an 8-bit unsigned type. -/
def u8 (n : Nat) : Nat := n % 256

/-- Truncation to `uint16_t`, as in C conversion to a 16-bit unsigned type. -/
def u16 (n : Nat) : Nat := n % 65536

/-- Conversion of a C `int` value to `uint16_t`: reduction modulo 2^16,
well defined also for negative values. -/
def u16ofInt (i : Int) : Nat := (i % 65536).toNat

/-- `#define SCREEN_WIDTH 240` (st7789.h). -/
def SCREEN_WIDTH : Nat := 240

/-- `#define SCREEN_HEIGHT 320` (st7789.h). -/
def SCREEN_HEIGHT : Nat := 320

/-- `#define ST7789_SWRESET 0x01` (st7789.h). -/
def ST7789_SWRESET : Nat := 0x01

/-- `#define ST7789_SLPOUT 0x11` (st7789.h). -/
def ST7789_SLPOUT : Nat := 0x11

/-- `#define ST7789_COLMOD 0x3A` (st7789.h). -/
def ST7789_COLMOD : Nat := 0x3A

/-- `#define ST7789_MADCTL 0x36` (st7789.h). -/
def ST7789_MADCTL : Nat := 0x36

/-- `#define ST7789_CASET 0x2A` (st7789.h). -/
def ST7789_CASET : Nat := 0x2A

/-- `#define ST7789_RASET 0x2B` (st7789.h). -/
def ST7789_RASET : Nat := 0x2B

/-- `#define ST7789_RAMWR 0x2C` (st7789.h). -/
def ST7789_RAMWR : Nat := 0x2C

/-- `#define ST7789_DISPON 0x29` (st7789.h). -/
def ST7789_DISPON : Nat := 0x29

/-- `#define ST7789_INVOFF 0x20` (st7789.h). -/
def ST7789_INVOFF : Nat := 0x20

/-- The driver object: the SPI peripheral reference and the five pin numbers,
exactly the six private members of class `ST7789` (st7789.h).  The C++
constructor only copies its arguments into these fields, which is the
anonymous constructor `ST7789.mk` here. -/
structure ST7789 where
  spi : Nat
  cs : Nat
  dc : Nat
  rst : Nat
  sck : Nat
  mosi : Nat
  deriving DecidableEq, Repr

/-- `ST7789::writeCommand` (st7789.cpp): DC low, CS low, one-byte SPI write,
CS high.  The `uint8_t` parameter truncates its argument. -/
def ST7789.writeCommand (d : ST7789) (cmd : Nat) : ST7789 × List Event :=
  (d, [.gpioPut d.dc 0, .gpioPut d.cs 0, .spiWrite [u8 cmd], .gpioPut d.cs 1])

/-- `ST7789::writeData` (st7789.cpp): DC high, CS low, one-byte SPI write,
CS high. -/
def ST7789.writeData (d : ST7789) (dat : Nat) : ST7789 × List Event :=
  (d, [.gpioPut d.dc 1, .gpioPut d.cs 0, .spiWrite [u8 dat], .gpioPut d.cs 1])

/-- `ST7789::writeDataBuf` (st7789.cpp): DC high, CS low, a single SPI write
of the whole buffer, CS high. -/
def ST7789.writeDataBuf (d : ST7789) (buf : List Nat) : ST7789 × List Event :=
  (d, [.gpioPut d.dc 1, .gpioPut d.cs 0, .spiWrite buf, .gpioPut d.cs 1])

/-- `ST7789::setWindow` (st7789.cpp): CASET with the four x bytes, RASET with
the four y bytes, then RAMWR.  All four parameters are `uint16_t`. -/
def ST7789.setWindow (d : ST7789) (x0 y0 x1 y1 : Nat) : ST7789 × List Event :=
  let x0 := u16 x0
  let y0 := u16 y0
  let x1 := u16 x1
  let y1 := u16 y1
  let (d1, c1) := d.writeCommand ST7789_CASET
  let (d2, b1) := d1.writeData (x0 >>> 8)
  let (d3, b2) := d2.writeData (x0 &&& 0xFF)
  let (d4, b3) := d3.writeData (x1 >>> 8)
  let (d5, b4) := d4.writeData (x1 &&& 0xFF)
  let (d6, c2) := d5.writeCommand ST7789_RASET
  let (d7, b5) := d6.writeData (y0 >>> 8)
  let (d8, b6) := d7.writeData (y0 &&& 0xFF)
  let (d9, b7) := d8.writeData (y1 >>> 8)
  let (d10, b8) := d9.writeData (y1 &&& 0xFF)
  let (d11, c3) := d10.writeCommand ST7789_RAMWR
  (d11, c1 ++ b1 ++ b2 ++ b3 ++ b4 ++ c2 ++ b5 ++ b6 ++ b7 ++ b8 ++ c3)

/-- `ST7789::init` (st7789.cpp): SPI/GPIO configuration, the hardware reset
pulse with its three 100 ms delays, then SWRESET (150 ms), SLPOUT (120 ms),
COLMOD 0x55, MADCTL 0x00, INVOFF, DISPON (100 ms). -/
def ST7789.init (d : ST7789) (baudrate : Nat) : ST7789 × List Event :=
  let pre : List Event :=
    [.spiInitEv d.spi baudrate,
     .gpioSetFunction d.sck, .gpioSetFunction d.mosi,
     .gpioInitEv d.cs, .gpioInitEv d.dc, .gpioInitEv d.rst,
     .gpioSetDir d.cs, .gpioSetDir d.dc, .gpioSetDir d.rst,
     .gpioPut d.rst 1, .sleepMs 100,
     .gpioPut d.rst 0, .sleepMs 100,
     .gpioPut d.rst 1, .sleepMs 100]
  let (d1, c1) := d.writeCommand ST7789_SWRESET
  let (d2, c2) := d1.writeCommand ST7789_SLPOUT
  let (d3, c3) := d2.writeCommand ST7789_COLMOD
  let (d4, p3) := d3.writeData 0x55
  let (d5, c4) := d4.writeCommand ST7789_MADCTL
  let (d6, p4) := d5.writeData 0x00
  let (d7, c5) := d6.writeCommand ST7789_INVOFF
  let (d8, c6) := d7.writeCommand ST7789_DISPON
  (d8, pre ++ c1 ++ [.sleepMs 150] ++ c2 ++ [.sleepMs 120]
        ++ c3 ++ p3 ++ c4 ++ p4 ++ c5 ++ c6 ++ [.sleepMs 100])

/-- `ST7789::fillRect` (st7789.cpp): reject an out-of-bounds origin, clip
`w`/`h` against the right/bottom edge (in promoted `int` arithmetic, hence
exact), set the window to the clipped rectangle (the inclusive end
coordinates `x + w - 1` / `y + h - 1` are `int` values converted to
`uint16_t` parameters), then stream `w * h` two-byte pixel writes inside a
single CS-low window with DC high. -/
def ST7789.fillRect (d : ST7789) (x y w h color : Nat) : ST7789 × List Event :=
  let x := u16 x
  let y := u16 y
  let w := u16 w
  let h := u16 h
  let color := u16 color
  if x ≥ SCREEN_WIDTH ∨ y ≥ SCREEN_HEIGHT then (d, [])
  else
    let w := if x + w > SCREEN_WIDTH then SCREEN_WIDTH - x else w
    let h := if y + h > SCREEN_HEIGHT then SCREEN_HEIGHT - y else h
    let colorBuf : List Nat := [color >>> 8, color &&& 0xFF]
    let (d1, t1) := d.setWindow x y (u16ofInt ((x : Int) + (w : Int) - 1))
                      (u16ofInt ((y : Int) + (h : Int) - 1))
    (d1, t1 ++ [.gpioPut d1.dc 1, .gpioPut d1.cs 0]
          ++ List.replicate (w * h) (.spiWrite colorBuf)
          ++ [.gpioPut d1.cs 1])

/-- `ST7789::drawPixel` (st7789.cpp): reject out-of-bounds coordinates, set a
1×1 window, then send the two color bytes with `writeDataBuf`. -/
def ST7789.drawPixel (d : ST7789) (x y color : Nat) : ST7789 × List Event :=
  let x := u16 x
  let y := u16 y
  let color := u16 color
  if x ≥ SCREEN_WIDTH ∨ y ≥ SCREEN_HEIGHT then (d, [])
  else
    let colorBuf : List Nat := [color >>> 8, color &&& 0xFF]
    let (d1, t1) := d.setWindow x y x y
    let (d2, t2) := d1.writeDataBuf colorBuf
    (d2, t1 ++ t2)

/-- `ST7789::fillScreen` (st7789.cpp): `fillRect(0, 0, SCREEN_WIDTH,
SCREEN_HEIGHT, color)`. -/
def ST7789.fillScreen (d : ST7789) (color : Nat) : ST7789 × List Event :=
  d.fillRect 0 0 SCREEN_WIDTH SCREEN_HEIGHT color

/-- The display object of the demo program (main.cpp):
`ST7789 display(spi0, 17, 16, 20, 18, 19)`; `spi0` is numbered 0. -/
def dispDemo : ST7789 := ⟨0, 17, 16, 20, 18, 19⟩

/-- A pixel write: an SPI transfer of exactly two bytes. -/
def isPixelWrite : Event → Bool
  | .spiWrite [_, _] => true
  | _ => false

/-- Number of two-byte SPI transfers in a trace. -/
def countPixelWrites (t : List Event) : Nat := t.countP isPixelWrite

/-- The payload of an event when it is a two-byte SPI transfer. -/
def twoByteWrite : Event → Option (List Nat)
  | .spiWrite [a, b] => some [a, b]
  | _ => none

/-- The two-byte SPI transfers of a trace, in order. -/
def twoByteWrites (t : List Event) : List (List Nat) :=
  t.filterMap twoByteWrite

/-- The value written when an event drives the given chip-select pin. -/
def csPut (cs : Nat) : Event → Option Nat
  | .gpioPut p v => if p = cs then some v else none
  | _ => none

/-- The values driven onto the given chip-select pin by a trace, in order. -/
def csPuts (cs : Nat) (t : List Event) : List Nat := t.filterMap (csPut cs)

/-- The payload of an event when it is an SPI transfer. -/
def spiTransfer : Event → Option (List Nat)
  | .spiWrite bs => some bs
  | _ => none

/-- The SPI transfer payloads of a trace, in order. -/
def spiTransfers (t : List Event) : List (List Nat) := t.filterMap spiTransfer

/-- The bytes a trace puts on the SPI bus, each tagged `true` when the
data/command pin `dcPin` was last driven low (command byte) and `false` when
it was last driven high (data byte).  The mode starts unknown (`none`);
bytes sent before the pin is ever driven are dropped. -/
def dcBytes (dcPin : Nat) (mode : Option Bool) : List Event → List (Bool × Nat)
  | [] => []
  | e :: rest =>
    match e, mode with
    | .gpioPut p v, m =>
        if p = dcPin then dcBytes dcPin (some (v == 0)) rest
        else dcBytes dcPin m rest
    | .spiWrite bs, some m => (bs.map fun b => (m, b)) ++ dcBytes dcPin (some m) rest
    | .spiWrite _, none => dcBytes dcPin none rest
    | _, m => dcBytes dcPin m rest

/-- A step of the initialization sequence as seen at the hardware: a write to
the reset pin, a delay, or a command byte. -/
inductive InitStep where
  | rstPut (v : Nat)
  | delay (ms : Nat)
  | cmd (b : Nat)
  deriving DecidableEq, Repr

/-- Project a trace onto its initialization steps: writes to the reset pin
`rstPin`, delays, and command bytes (SPI bytes sent while the data/command
pin `dcPin` was last driven low). -/
def initSteps (dcPin rstPin : Nat) (mode : Option Bool) :
    List Event → List InitStep
  | [] => []
  | e :: rest =>
    match e, mode with
    | .gpioPut p v, m =>
        if p = dcPin then initSteps dcPin rstPin (some (v == 0)) rest
        else if p = rstPin then .rstPut v :: initSteps dcPin rstPin m rest
        else initSteps dcPin rstPin m rest
    | .spiWrite bs, some true =>
        (bs.map .cmd) ++ initSteps dcPin rstPin (some true) rest
    | .spiWrite _, m => initSteps dcPin rstPin m rest
    | .sleepMs n, m => .delay n :: initSteps dcPin rstPin m rest
    | _, m => initSteps dcPin rstPin m rest

/-! ### Arithmetic bridge lemmas -/

/-- A logical shift right by 8 is division by 256. -/
theorem shiftRight8_eq_div (n : Nat) : n >>> 8 = n / 256 := by
  have := Nat.shiftRight_eq_div_pow n 8
  norm_num at this
  exact this

/-- Masking with 0xFF is reduction modulo 256. -/
theorem and255_eq_mod (n : Nat) : n &&& 0xFF = n % 256 := by
  have := Nat.and_pow_two_sub_one_eq_mod n 8
  norm_num at this
  exact this

/-- The high byte of a 16-bit value survives `uint8_t` truncation. -/
theorem u8_shiftRight8 (n : Nat) (h : n < 65536) : u8 (n >>> 8) = n / 256 := by
  rw [u8, shiftRight8_eq_div]
  omega

/-- The low byte of a value survives `uint8_t` truncation. -/
theorem u8_and255 (n : Nat) : u8 (n &&& 0xFF) = n % 256 := by
  rw [u8, and255_eq_mod]
  omega

/-! ### Trace projection lemmas -/

/-- `countPixelWrites` distributes over concatenation. -/
theorem countPixelWrites_append (s t : List Event) :
    countPixelWrites (s ++ t) = countPixelWrites s + countPixelWrites t :=
  List.countP_append _ _ _

/-- `countPixelWrites` on a cons. -/
theorem countPixelWrites_cons (e : Event) (t : List Event) :
    countPixelWrites (e :: t) = countPixelWrites t + if isPixelWrite e then 1 else 0 :=
  List.countP_cons _ _ _

/-- A block of `n` two-byte SPI transfers counts as `n` pixel writes. -/
theorem countPixelWrites_replicate2 (n a b : Nat) :
    countPixelWrites (List.replicate n (Event.spiWrite [a, b])) = n := by
  induction n with
  | zero => rfl
  | succ k ih =>
      rw [List.replicate_succ, countPixelWrites, List.countP_cons]
      rw [countPixelWrites] at ih
      rw [ih]
      simp [isPixelWrite]

/-- `twoByteWrites` distributes over concatenation. -/
theorem twoByteWrites_append (s t : List Event) :
    twoByteWrites (s ++ t) = twoByteWrites s ++ twoByteWrites t :=
  List.filterMap_append _ _ _

/-- `spiTransfers` distributes over concatenation. -/
theorem spiTransfers_append (s t : List Event) :
    spiTransfers (s ++ t) = spiTransfers s ++ spiTransfers t :=
  List.filterMap_append _ _ _

/-- `csPuts` distributes over concatenation. -/
theorem csPuts_append (p : Nat) (s t : List Event) :
    csPuts p (s ++ t) = csPuts p s ++ csPuts p t :=
  List.filterMap_append _ _ _

/-- A replicated two-byte SPI transfer contributes no chip-select edge. -/
theorem csPuts_replicate_spiWrite (p n : Nat) (bs : List Nat) :
    csPuts p (List.replicate n (Event.spiWrite bs)) = [] := by
  induction n with
  | zero => rfl
  | succ k ih => rw [List.replicate_succ, csPuts, List.filterMap_cons]; exact ih

/-- A replicated SPI transfer projects to the replicated payload. -/
theorem spiTransfers_replicate_spiWrite (n : Nat) (bs : List Nat) :
    spiTransfers (List.replicate n (Event.spiWrite bs)) = List.replicate n bs := by
  induction n with
  | zero => rfl
  | succ k ih =>
      rw [List.replicate_succ, spiTransfers, List.filterMap_cons]
      rw [spiTransfers] at ih
      simp [spiTransfer, ih, List.replicate_succ]

/-- A replicated two-byte SPI transfer projects to the replicated payload. -/
theorem twoByteWrites_replicate2 (n a b : Nat) :
    twoByteWrites (List.replicate n (Event.spiWrite [a, b]))
      = List.replicate n [a, b] := by
  induction n with
  | zero => rfl
  | succ k ih =>
      rw [List.replicate_succ, twoByteWrites, List.filterMap_cons]
      rw [twoByteWrites] at ih
      simp [twoByteWrite, ih, List.replicate_succ]

/-- `setWindow` performs no two-byte SPI transfer: every byte it sends goes
out alone. -/
theorem countPixelWrites_setWindow (d : ST7789) (a b e f : Nat) :
    countPixelWrites (d.setWindow a b e f).2 = 0 := by
  simp [ST7789.setWindow, ST7789.writeCommand, ST7789.writeData,
    countPixelWrites, List.countP_cons, isPixelWrite]

/-- `setWindow` contributes no element to `twoByteWrites`. -/
theorem twoByteWrites_setWindow (d : ST7789) (a b e f : Nat) :
    twoByteWrites (d.setWindow a b e f).2 = [] := by
  simp [ST7789.setWindow, ST7789.writeCommand, ST7789.writeData,
    twoByteWrites, twoByteWrite]

/-! ### State components of the operations -/

/-- `writeCommand` leaves the object state unchanged. -/
theorem writeCommand_fst (d : ST7789) (c : Nat) : (d.writeCommand c).1 = d := rfl

/-- `writeData` leaves the object state unchanged. -/
theorem writeData_fst (d : ST7789) (c : Nat) : (d.writeData c).1 = d := rfl

/-- `writeDataBuf` leaves the object state unchanged. -/
theorem writeDataBuf_fst (d : ST7789) (buf : List Nat) :
    (d.writeDataBuf buf).1 = d := rfl

/-- `setWindow` leaves the object state unchanged. -/
theorem setWindow_fst (d : ST7789) (a b e f : Nat) :
    (d.setWindow a b e f).1 = d := rfl

/-- `init` leaves the object state unchanged. -/
theorem init_fst (d : ST7789) (baud : Nat) : (d.init baud).1 = d := rfl

/-- `fillRect` leaves the object state unchanged. -/
theorem fillRect_fst (d : ST7789) (x y w h c : Nat) :
    (d.fillRect x y w h c).1 = d := by
  unfold ST7789.fillRect
  dsimp only
  split
  · rfl
  · rfl

/-- `drawPixel` leaves the object state unchanged. -/
theorem drawPixel_fst (d : ST7789) (x y c : Nat) : (d.drawPixel x y c).1 = d := by
  unfold ST7789.drawPixel
  dsimp only
  split
  · rfl
  · rfl

/-- `fillScreen` leaves the object state unchanged. -/
theorem fillScreen_fst (d : ST7789) (c : Nat) : (d.fillScreen c).1 = d :=
  fillRect_fst d 0 0 SCREEN_WIDTH SCREEN_HEIGHT c

/-- Normal form of the `fillRect` trace when the origin is in bounds: the
window-set commands for the clipped rectangle, then `w' * h'` two-byte pixel
writes between one CS fall and one CS rise. -/
theorem fillRect_trace_inBounds (d : ST7789) (x y w h c : Nat)
    (hx : x < 240) (hy : y < 320) (hw : w < 65536) (hh : h < 65536)
    (hc : c < 65536) :
    (d.fillRect x y w h c).2 =
      (d.setWindow x y
          (u16ofInt ((x : Int) + ((if 240 < x + w then 240 - x else w : Nat) : Int) - 1))
          (u16ofInt ((y : Int) + ((if 320 < y + h then 320 - y else h : Nat) : Int) - 1))).2
      ++ [Event.gpioPut d.dc 1, Event.gpioPut d.cs 0]
      ++ List.replicate
           ((if 240 < x + w then 240 - x else w) * (if 320 < y + h then 320 - y else h))
           (Event.spiWrite [c / 256, c % 256])
      ++ [Event.gpioPut d.cs 1] := by
  have ex : u16 x = x := Nat.mod_eq_of_lt (by omega)
  have ey : u16 y = y := Nat.mod_eq_of_lt (by omega)
  have ew : u16 w = w := Nat.mod_eq_of_lt hw
  have eh : u16 h = h := Nat.mod_eq_of_lt hh
  have ec : u16 c = c := Nat.mod_eq_of_lt hc
  have hguard : ¬(x ≥ 240 ∨ y ≥ 320) := by omega
  rw [ST7789.fillRect]
  simp only [ex, ey, ew, eh, ec, SCREEN_WIDTH, SCREEN_HEIGHT,
    gt_iff_lt, shiftRight8_eq_div, and255_eq_mod, if_neg hguard, setWindow_fst]

/-- Claim C1: for an in-bounds origin, `fillRect` clips `w` to `240 - x`
when `x + w > 240` and `h` to `320 - y` when `y + h > 320` (the comparison
and subtraction are exact, with no 16-bit wraparound), after which
`x + w ≤ 240` and `y + h ≤ 320`, and it issues exactly
`w_clipped * h_clipped` two-byte pixel writes. -/
theorem fillRect_clipping_and_pixel_count (d : ST7789) (x y w h c : Nat)
    (hx : x < 240) (hy : y < 320) (hw : w < 65536) (hh : h < 65536)
    (hc : c < 65536) (_hover : 240 < x + w ∨ 320 < y + h) :
    x + (if 240 < x + w then 240 - x else w) ≤ 240 ∧
    y + (if 320 < y + h then 320 - y else h) ≤ 320 ∧
    countPixelWrites (d.fillRect x y w h c).2 =
      (if 240 < x + w then 240 - x else w) *
        (if 320 < y + h then 320 - y else h) := by
  refine ⟨by split <;> omega, by split <;> omega, ?_⟩
  rw [fillRect_trace_inBounds d x y w h c hx hy hw hh hc,
    countPixelWrites_append, countPixelWrites_append, countPixelWrites_append,
    countPixelWrites_setWindow, countPixelWrites_replicate2]
  simp [countPixelWrites, isPixelWrite]

theorem fillRect_clipping_and_pixel_count_witness :
    (200 : Nat) < 240 ∧ (300 : Nat) < 320 ∧ (100 : Nat) < 65536 ∧
    (50 : Nat) < 65536 ∧ (0xF800 : Nat) < 65536 ∧
    ((240 : Nat) < 200 + 100 ∨ (320 : Nat) < 300 + 50) ∧
    (200 + (if (240 : Nat) < 200 + 100 then 240 - 200 else 100) ≤ 240 ∧
     300 + (if (320 : Nat) < 300 + 50 then 320 - 300 else 50) ≤ 320 ∧
     countPixelWrites (dispDemo.fillRect 200 300 100 50 0xF800).2 =
       (if (240 : Nat) < 200 + 100 then 240 - 200 else 100) *
         (if (320 : Nat) < 300 + 50 then 320 - 300 else 50)) :=
  ⟨by decide, by decide, by decide, by decide, by decide, by decide,
   fillRect_clipping_and_pixel_count dispDemo 200 300 100 50 0xF800
     (by decide) (by decide) (by decide) (by decide) (by decide)
     (by decide)⟩

/-- Claim C2: `setWindow` emits the column-address-set command 0x2A followed
by the four data bytes `[x0 >> 8, x0 & 0xFF, x1 >> 8, x1 & 0xFF]`, then the
row-address-set command 0x2B with the analogous four y bytes, then the
memory-write command 0x2C with no trailing data. -/
theorem setWindow_emits_caset_raset_ramwr (d : ST7789) (x0 y0 x1 y1 : Nat)
    (h0 : x0 < 65536) (h1 : y0 < 65536) (h2 : x1 < 65536) (h3 : y1 < 65536) :
    (d.setWindow x0 y0 x1 y1).2 =
      [Event.gpioPut d.dc 0, Event.gpioPut d.cs 0, Event.spiWrite [0x2A], Event.gpioPut d.cs 1,
       Event.gpioPut d.dc 1, Event.gpioPut d.cs 0, Event.spiWrite [x0 / 256], Event.gpioPut d.cs 1,
       Event.gpioPut d.dc 1, Event.gpioPut d.cs 0, Event.spiWrite [x0 % 256], Event.gpioPut d.cs 1,
       Event.gpioPut d.dc 1, Event.gpioPut d.cs 0, Event.spiWrite [x1 / 256], Event.gpioPut d.cs 1,
       Event.gpioPut d.dc 1, Event.gpioPut d.cs 0, Event.spiWrite [x1 % 256], Event.gpioPut d.cs 1,
       Event.gpioPut d.dc 0, Event.gpioPut d.cs 0, Event.spiWrite [0x2B], Event.gpioPut d.cs 1,
       Event.gpioPut d.dc 1, Event.gpioPut d.cs 0, Event.spiWrite [y0 / 256], Event.gpioPut d.cs 1,
       Event.gpioPut d.dc 1, Event.gpioPut d.cs 0, Event.spiWrite [y0 % 256], Event.gpioPut d.cs 1,
       Event.gpioPut d.dc 1, Event.gpioPut d.cs 0, Event.spiWrite [y1 / 256], Event.gpioPut d.cs 1,
       Event.gpioPut d.dc 1, Event.gpioPut d.cs 0, Event.spiWrite [y1 % 256], Event.gpioPut d.cs 1,
       Event.gpioPut d.dc 0, Event.gpioPut d.cs 0, Event.spiWrite [0x2C], Event.gpioPut d.cs 1] := by
  have e0 : u16 x0 = x0 := Nat.mod_eq_of_lt h0
  have e1 : u16 y0 = y0 := Nat.mod_eq_of_lt h1
  have e2 : u16 x1 = x1 := Nat.mod_eq_of_lt h2
  have e3 : u16 y1 = y1 := Nat.mod_eq_of_lt h3
  have b0 : u8 (x0 >>> 8) = x0 / 256 := u8_shiftRight8 x0 h0
  have b1 : u8 (x0 &&& 0xFF) = x0 % 256 := u8_and255 x0
  have b2 : u8 (x1 >>> 8) = x1 / 256 := u8_shiftRight8 x1 h2
  have b3 : u8 (x1 &&& 0xFF) = x1 % 256 := u8_and255 x1
  have b4 : u8 (y0 >>> 8) = y0 / 256 := u8_shiftRight8 y0 h1
  have b5 : u8 (y0 &&& 0xFF) = y0 % 256 := u8_and255 y0
  have b6 : u8 (y1 >>> 8) = y1 / 256 := u8_shiftRight8 y1 h3
  have b7 : u8 (y1 &&& 0xFF) = y1 % 256 := u8_and255 y1
  have c1 : u8 ST7789_CASET = 0x2A := rfl
  have c2 : u8 ST7789_RASET = 0x2B := rfl
  have c3 : u8 ST7789_RAMWR = 0x2C := rfl
  simp only [ST7789.setWindow, ST7789.writeCommand, ST7789.writeData,
    e0, e1, e2, e3, b0, b1, b2, b3, b4, b5, b6, b7, c1, c2, c3,
    List.cons_append, List.nil_append]

theorem setWindow_emits_caset_raset_ramwr_witness :
    (10 : Nat) < 65536 ∧ (20 : Nat) < 65536 ∧ (50 : Nat) < 65536 ∧
    (60 : Nat) < 65536 ∧
    (dispDemo.setWindow 10 20 50 60).2 =
      [Event.gpioPut 16 0, Event.gpioPut 17 0, Event.spiWrite [0x2A], Event.gpioPut 17 1,
       Event.gpioPut 16 1, Event.gpioPut 17 0, Event.spiWrite [0x00], Event.gpioPut 17 1,
       Event.gpioPut 16 1, Event.gpioPut 17 0, Event.spiWrite [0x0A], Event.gpioPut 17 1,
       Event.gpioPut 16 1, Event.gpioPut 17 0, Event.spiWrite [0x00], Event.gpioPut 17 1,
       Event.gpioPut 16 1, Event.gpioPut 17 0, Event.spiWrite [0x32], Event.gpioPut 17 1,
       Event.gpioPut 16 0, Event.gpioPut 17 0, Event.spiWrite [0x2B], Event.gpioPut 17 1,
       Event.gpioPut 16 1, Event.gpioPut 17 0, Event.spiWrite [0x00], Event.gpioPut 17 1,
       Event.gpioPut 16 1, Event.gpioPut 17 0, Event.spiWrite [0x14], Event.gpioPut 17 1,
       Event.gpioPut 16 1, Event.gpioPut 17 0, Event.spiWrite [0x00], Event.gpioPut 17 1,
       Event.gpioPut 16 1, Event.gpioPut 17 0, Event.spiWrite [0x3C], Event.gpioPut 17 1,
       Event.gpioPut 16 0, Event.gpioPut 17 0, Event.spiWrite [0x2C], Event.gpioPut 17 1] :=
  ⟨by decide, by decide, by decide, by decide, by
    have := setWindow_emits_caset_raset_ramwr dispDemo 10 20 50 60
      (by decide) (by decide) (by decide) (by decide)
    simpa using this⟩

/-- Claim C5: for `x ≥ 240` or `y ≥ 320`, `drawPixel` performs no bus
transaction at all — its trace is empty — and `fillRect` with such an origin
likewise returns without any bus activity. -/
theorem out_of_bounds_no_bus_activity (d : ST7789) (x y w h c : Nat)
    (hx16 : x < 65536) (hy16 : y < 65536) (hout : 240 ≤ x ∨ 320 ≤ y) :
    (d.drawPixel x y c).2 = [] ∧ (d.fillRect x y w h c).2 = [] := by
  have ex : u16 x = x := Nat.mod_eq_of_lt hx16
  have ey : u16 y = y := Nat.mod_eq_of_lt hy16
  rcases hout with hcase | hcase <;>
    exact ⟨by simp [ST7789.drawPixel, ex, ey, SCREEN_WIDTH, SCREEN_HEIGHT, hcase],
           by simp [ST7789.fillRect, ex, ey, SCREEN_WIDTH, SCREEN_HEIGHT, hcase]⟩

theorem out_of_bounds_no_bus_activity_witness :
    (240 : Nat) < 65536 ∧ (0 : Nat) < 65536 ∧
    ((240 : Nat) ≤ 240 ∨ (320 : Nat) ≤ 0) ∧
    ((dispDemo.drawPixel 240 0 0xFFFF).2 = [] ∧
     (dispDemo.fillRect 240 0 5 5 0xFFFF).2 = []) :=
  ⟨by decide, by decide, by decide,
   out_of_bounds_no_bus_activity dispDemo 240 0 5 5 0xFFFF
     (by decide) (by decide) (by decide)⟩

/-- Claim C6: `fillScreen c` issues a command/data/pin event sequence
identical to `fillRect 0 0 240 320 c`; that common sequence carries
240 * 320 = 76800 pixel writes. -/
theorem fillScreen_refines_fillRect (d : ST7789) (c : Nat) :
    (d.fillScreen c).2 = (d.fillRect 0 0 240 320 c).2 ∧
    countPixelWrites (d.fillScreen c).2 = 76800 := by
  refine ⟨rfl, ?_⟩
  rw [ST7789.fillScreen, ST7789.fillRect]
  dsimp only
  norm_num [u16, SCREEN_WIDTH, SCREEN_HEIGHT, setWindow_fst]
  rw [countPixelWrites_append, countPixelWrites_setWindow, countPixelWrites_cons,
    countPixelWrites_cons, countPixelWrites_append, countPixelWrites_replicate2]
  simp [countPixelWrites, isPixelWrite]

/-- Claim C9: the constructor stores the peripheral reference and the five
pin numbers, and every operation (init, fillScreen, fillRect,
drawPixel, and the transport routines) leaves all six fields unchanged. -/
theorem pin_configuration_immutable (sp pc pd pr pk pm : Nat) (d : ST7789)
    (baud x y w h c x0 y0 x1 y1 cb db : Nat) (buf : List Nat) :
    (ST7789.mk sp pc pd pr pk pm).spi = sp ∧
    (ST7789.mk sp pc pd pr pk pm).cs = pc ∧
    (ST7789.mk sp pc pd pr pk pm).dc = pd ∧
    (ST7789.mk sp pc pd pr pk pm).rst = pr ∧
    (ST7789.mk sp pc pd pr pk pm).sck = pk ∧
    (ST7789.mk sp pc pd pr pk pm).mosi = pm ∧
    (d.init baud).1 = d ∧
    (d.fillScreen c).1 = d ∧
    (d.fillRect x y w h c).1 = d ∧
    (d.drawPixel x y c).1 = d ∧
    (d.writeCommand cb).1 = d ∧
    (d.writeData db).1 = d ∧
    (d.writeDataBuf buf).1 = d ∧
    (d.setWindow x0 y0 x1 y1).1 = d :=
  ⟨rfl, rfl, rfl, rfl, rfl, rfl, init_fst d baud, fillScreen_fst d c,
   fillRect_fst d x y w h c, drawPixel_fst d x y c, writeCommand_fst d cb,
   writeData_fst d db, writeDataBuf_fst d buf, setWindow_fst d x0 y0 x1 y1⟩

/-- Claim C4: every two-byte pixel transfer of `fillRect` carries the bytes
`[c >> 8, c & 0xFF]` (big-endian, independent of host byte order), and
`drawPixel` puts exactly one such two-byte transfer on the wire. -/
theorem pixel_bytes_big_endian (d : ST7789) (x y w h c : Nat)
    (hx : x < 240) (hy : y < 320) (hw : w < 65536) (hh : h < 65536)
    (hc : c < 65536) :
    (∀ bs ∈ twoByteWrites (d.fillRect x y w h c).2, bs = [c / 256, c % 256]) ∧
    twoByteWrites (d.drawPixel x y c).2 = [[c / 256, c % 256]] := by
  constructor
  · intro bs hbs
    rw [fillRect_trace_inBounds d x y w h c hx hy hw hh hc,
      twoByteWrites_append, twoByteWrites_append, twoByteWrites_append,
      twoByteWrites_setWindow, twoByteWrites_replicate2] at hbs
    simp [twoByteWrites, twoByteWrite, List.mem_replicate] at hbs
    exact hbs.2
  · have ex : u16 x = x := Nat.mod_eq_of_lt (by omega)
    have ey : u16 y = y := Nat.mod_eq_of_lt (by omega)
    have ec : u16 c = c := Nat.mod_eq_of_lt hc
    have hguard : ¬(x ≥ 240 ∨ y ≥ 320) := by omega
    rw [ST7789.drawPixel]
    simp only [ex, ey, ec, SCREEN_WIDTH, SCREEN_HEIGHT,
      shiftRight8_eq_div, and255_eq_mod, if_neg hguard, setWindow_fst,
      ST7789.writeDataBuf]
    rw [twoByteWrites_append, twoByteWrites_setWindow]
    simp [twoByteWrites, twoByteWrite]

theorem pixel_bytes_big_endian_witness :
    (3 : Nat) < 240 ∧ (4 : Nat) < 320 ∧ (10 : Nat) < 65536 ∧
    (10 : Nat) < 65536 ∧ (0xF800 : Nat) < 65536 ∧
    (0xF800 : Nat) / 256 = 0xF8 ∧ (0xF800 : Nat) % 256 = 0x00 ∧
    ((∀ bs ∈ twoByteWrites (dispDemo.fillRect 3 4 10 10 0xF800).2,
        bs = [(0xF800 : Nat) / 256, (0xF800 : Nat) % 256]) ∧
     twoByteWrites (dispDemo.drawPixel 3 4 0xF800).2 =
       [[(0xF800 : Nat) / 256, (0xF800 : Nat) % 256]]) :=
  ⟨by decide, by decide, by decide, by decide, by decide, by decide, by decide,
   pixel_bytes_big_endian dispDemo 3 4 10 10 0xF800
     (by decide) (by decide) (by decide) (by decide) (by decide)⟩

/-- Claim C7: chip-select is held for the whole transfer as one transaction.
`writeDataBuf` emits exactly one CS falling edge, then the single SPI
transfer of the whole buffer, then one CS rising edge; the `fillRect` pixel
stream after the window setup is exactly one CS falling edge, then
`w_clipped * h_clipped` separate two-byte SPI transfers, then one CS rising
edge — the transfers lie strictly between the two CS edges, which are the
only CS activity of the segment. -/
theorem single_cs_transaction (d : ST7789) (buf : List Nat) (x y w h c : Nat)
    (hdc : d.dc ≠ d.cs) (hx : x < 240) (hy : y < 320) (hw : w < 65536)
    (hh : h < 65536) (hc : c < 65536) :
    ((d.writeDataBuf buf).2 =
        [Event.gpioPut d.dc 1] ++ [Event.gpioPut d.cs 0]
          ++ [Event.spiWrite buf] ++ [Event.gpioPut d.cs 1] ∧
     csPuts d.cs (d.writeDataBuf buf).2 = [0, 1] ∧
     spiTransfers (d.writeDataBuf buf).2 = [buf]) ∧
    ((d.fillRect x y w h c).2 =
        (d.setWindow x y
            (u16ofInt ((x : Int) + ((if 240 < x + w then 240 - x else w : Nat) : Int) - 1))
            (u16ofInt ((y : Int) + ((if 320 < y + h then 320 - y else h : Nat) : Int) - 1))).2
          ++ [Event.gpioPut d.dc 1] ++ [Event.gpioPut d.cs 0]
          ++ List.replicate
               ((if 240 < x + w then 240 - x else w) *
                 (if 320 < y + h then 320 - y else h))
               (Event.spiWrite [c / 256, c % 256])
          ++ [Event.gpioPut d.cs 1] ∧
     csPuts d.cs
         ([Event.gpioPut d.dc 1] ++ [Event.gpioPut d.cs 0]
           ++ List.replicate
                ((if 240 < x + w then 240 - x else w) *
                  (if 320 < y + h then 320 - y else h))
                (Event.spiWrite [c / 256, c % 256])
           ++ [Event.gpioPut d.cs 1]) = [0, 1]) := by
  refine ⟨⟨?_, ?_, ?_⟩, ?_, ?_⟩
  · rfl
  · simp [ST7789.writeDataBuf, csPuts, csPut, hdc]
  · simp [ST7789.writeDataBuf, spiTransfers, spiTransfer]
  · rw [fillRect_trace_inBounds d x y w h c hx hy hw hh hc]
    simp [List.append_assoc]
  · rw [csPuts_append, csPuts_append, csPuts_append, csPuts_replicate_spiWrite]
    simp [csPuts, csPut, hdc]

theorem single_cs_transaction_witness :
    (dispDemo.dc ≠ dispDemo.cs) ∧ (5 : Nat) < 240 ∧ (6 : Nat) < 320 ∧
    (7 : Nat) < 65536 ∧ (8 : Nat) < 65536 ∧ (0x07E0 : Nat) < 65536 ∧
    (((dispDemo.writeDataBuf [1, 2, 3]).2 =
        [Event.gpioPut dispDemo.dc 1] ++ [Event.gpioPut dispDemo.cs 0]
          ++ [Event.spiWrite [1, 2, 3]] ++ [Event.gpioPut dispDemo.cs 1] ∧
      csPuts dispDemo.cs (dispDemo.writeDataBuf [1, 2, 3]).2 = [0, 1] ∧
      spiTransfers (dispDemo.writeDataBuf [1, 2, 3]).2 = [[1, 2, 3]]) ∧
     ((dispDemo.fillRect 5 6 7 8 0x07E0).2 =
        (dispDemo.setWindow 5 6
            (u16ofInt ((5 : Int) + ((if (240 : Nat) < 5 + 7 then 240 - 5 else 7 : Nat) : Int) - 1))
            (u16ofInt ((6 : Int) + ((if (320 : Nat) < 6 + 8 then 320 - 6 else 8 : Nat) : Int) - 1))).2
          ++ [Event.gpioPut dispDemo.dc 1] ++ [Event.gpioPut dispDemo.cs 0]
          ++ List.replicate
               ((if (240 : Nat) < 5 + 7 then 240 - 5 else 7) *
                 (if (320 : Nat) < 6 + 8 then 320 - 6 else 8))
               (Event.spiWrite [(0x07E0 : Nat) / 256, (0x07E0 : Nat) % 256])
          ++ [Event.gpioPut dispDemo.cs 1] ∧
      csPuts dispDemo.cs
          ([Event.gpioPut dispDemo.dc 1] ++ [Event.gpioPut dispDemo.cs 0]
            ++ List.replicate
                 ((if (240 : Nat) < 5 + 7 then 240 - 5 else 7) *
                   (if (320 : Nat) < 6 + 8 then 320 - 6 else 8))
                 (Event.spiWrite [(0x07E0 : Nat) / 256, (0x07E0 : Nat) % 256])
            ++ [Event.gpioPut dispDemo.cs 1]) = [0, 1])) :=
  ⟨by decide, by decide, by decide, by decide, by decide, by decide,
   single_cs_transaction dispDemo [1, 2, 3] 5 6 7 8 0x07E0
     (by decide) (by decide) (by decide) (by decide) (by decide) (by decide)⟩

/-- Claim C10: for an in-bounds origin with `w = 0` or `h = 0`, `fillRect`
is not a bus no-op: it still emits the full window-set sequence, whose
inclusive end coordinate is `x + w - 1` reduced modulo 2^16 (wrapping to
65535 when `x = 0` and `w = 0`), followed by zero pixel writes inside the
chip-select window. -/
theorem fillRect_degenerate_window_wraps (d : ST7789) (x y w h c : Nat)
    (hx : x < 240) (hy : y < 320) (hw : w < 65536) (hh : h < 65536)
    (hc : c < 65536) (hz : w = 0 ∨ h = 0) :
    (d.fillRect x y w h c).2 =
      (d.setWindow x y
          (u16ofInt ((x : Int) + ((if 240 < x + w then 240 - x else w : Nat) : Int) - 1))
          (u16ofInt ((y : Int) + ((if 320 < y + h then 320 - y else h : Nat) : Int) - 1))).2
        ++ [Event.gpioPut d.dc 1, Event.gpioPut d.cs 0, Event.gpioPut d.cs 1] ∧
    countPixelWrites (d.fillRect x y w h c).2 = 0 ∧
    (d.fillRect x y w h c).2 ≠ [] := by
  have hprod : (if 240 < x + w then 240 - x else w) *
      (if 320 < y + h then 320 - y else h) = 0 := by
    rcases hz with rfl | rfl
    · have hnw : (if 240 < x + 0 then 240 - x else 0) = 0 := by split <;> omega
      rw [hnw, zero_mul]
    · have hnh : (if 320 < y + 0 then 320 - y else 0) = 0 := by split <;> omega
      rw [hnh, mul_zero]
  refine ⟨?_, ?_, ?_⟩
  · rw [fillRect_trace_inBounds d x y w h c hx hy hw hh hc, hprod]
    simp
  · rw [fillRect_trace_inBounds d x y w h c hx hy hw hh hc, hprod]
    rw [countPixelWrites_append, countPixelWrites_append, countPixelWrites_append,
      countPixelWrites_setWindow]
    simp [countPixelWrites, isPixelWrite]
  · rw [fillRect_trace_inBounds d x y w h c hx hy hw hh hc]
    simp [ST7789.setWindow, ST7789.writeCommand, ST7789.writeData]

theorem fillRect_degenerate_window_wraps_witness :
    (0 : Nat) < 240 ∧ (5 : Nat) < 320 ∧ (0 : Nat) < 65536 ∧
    (7 : Nat) < 65536 ∧ (0xABCD : Nat) < 65536 ∧ ((0 : Nat) = 0 ∨ (7 : Nat) = 0) ∧
    u16ofInt ((0 : Int) + ((if (240 : Nat) < 0 + 0 then 240 - 0 else 0 : Nat) : Int) - 1) = 65535 ∧
    ((dispDemo.fillRect 0 5 0 7 0xABCD).2 =
       (dispDemo.setWindow 0 5
           (u16ofInt ((0 : Int) + ((if (240 : Nat) < 0 + 0 then 240 - 0 else 0 : Nat) : Int) - 1))
           (u16ofInt ((5 : Int) + ((if (320 : Nat) < 5 + 7 then 320 - 5 else 7 : Nat) : Int) - 1))).2
         ++ [Event.gpioPut dispDemo.dc 1, Event.gpioPut dispDemo.cs 0,
             Event.gpioPut dispDemo.cs 1] ∧
     countPixelWrites (dispDemo.fillRect 0 5 0 7 0xABCD).2 = 0 ∧
     (dispDemo.fillRect 0 5 0 7 0xABCD).2 ≠ []) :=
  ⟨by decide, by decide, by decide, by decide, by decide, by decide, by decide,
   fillRect_degenerate_window_wraps dispDemo 0 5 0 7 0xABCD
     (by decide) (by decide) (by decide) (by decide) (by decide) (by decide)⟩

/-- Claim C3: for every baudrate, `init` puts on the SPI bus the
command bytes software-reset 0x01, sleep-exit 0x11, color-mode 0x3A with
data parameter 0x55, memory-access-control 0x36 with data parameter 0x00,
inversion-off 0x20 and display-on 0x29, in that fixed order, with the
command/data tagging given by the DC pin and no dependence on the baudrate
parameter. -/
theorem init_command_sequence_fixed (d : ST7789) (baud : Nat)
    (h1 : d.dc ≠ d.cs) (h2 : d.dc ≠ d.rst) :
    dcBytes d.dc none (d.init baud).2 =
      [(true, 0x01), (true, 0x11), (true, 0x3A), (false, 0x55),
       (true, 0x36), (false, 0x00), (true, 0x20), (true, 0x29)] := by
  have h1s : ¬(d.cs = d.dc) := fun e => h1 e.symm
  have h2s : ¬(d.rst = d.dc) := fun e => h2 e.symm
  simp [ST7789.init, ST7789.writeCommand, ST7789.writeData, dcBytes,
    u8, h1s, h2s, ST7789_SWRESET, ST7789_SLPOUT, ST7789_COLMOD, ST7789_MADCTL,
    ST7789_INVOFF, ST7789_DISPON]

theorem init_command_sequence_fixed_witness :
    (dispDemo.dc ≠ dispDemo.cs) ∧ (dispDemo.dc ≠ dispDemo.rst) ∧
    dcBytes dispDemo.dc none (dispDemo.init 32000000).2 =
      [(true, 0x01), (true, 0x11), (true, 0x3A), (false, 0x55),
       (true, 0x36), (false, 0x00), (true, 0x20), (true, 0x29)] :=
  ⟨by decide, by decide,
   init_command_sequence_fixed dispDemo 32000000 (by decide) (by decide)⟩

/-- Claim C8: `init` performs the hardware reset as reset-high,
100 ms delay, reset-low, 100 ms delay, reset-high, 100 ms delay, then a
150 ms delay right after the software-reset command, a 120 ms delay right
after the sleep-exit command, and a 100 ms delay right after the display-on
command — each delay at exactly that point of the event sequence, meeting
the stated lower bounds. -/
theorem init_reset_and_delays (d : ST7789) (baud : Nat)
    (h1 : d.dc ≠ d.cs) (h2 : d.dc ≠ d.rst) (h3 : d.cs ≠ d.rst) :
    initSteps d.dc d.rst none (d.init baud).2 =
      [InitStep.rstPut 1, InitStep.delay 100,
       InitStep.rstPut 0, InitStep.delay 100,
       InitStep.rstPut 1, InitStep.delay 100,
       InitStep.cmd 0x01, InitStep.delay 150,
       InitStep.cmd 0x11, InitStep.delay 120,
       InitStep.cmd 0x3A, InitStep.cmd 0x36, InitStep.cmd 0x20,
       InitStep.cmd 0x29, InitStep.delay 100] := by
  have h1s : ¬(d.cs = d.dc) := fun e => h1 e.symm
  have h2s : ¬(d.rst = d.dc) := fun e => h2 e.symm
  have h3s : ¬(d.cs = d.rst) := h3
  simp [ST7789.init, ST7789.writeCommand, ST7789.writeData, initSteps,
    u8, h1s, h2s, h3s, ST7789_SWRESET, ST7789_SLPOUT, ST7789_COLMOD,
    ST7789_MADCTL, ST7789_INVOFF, ST7789_DISPON]

theorem init_reset_and_delays_witness :
    (dispDemo.dc ≠ dispDemo.cs) ∧ (dispDemo.dc ≠ dispDemo.rst) ∧
    (dispDemo.cs ≠ dispDemo.rst) ∧
    (100 ≤ (100 : Nat) ∧ 150 ≤ (150 : Nat) ∧ 120 ≤ (120 : Nat)) ∧
    initSteps dispDemo.dc dispDemo.rst none (dispDemo.init 32000000).2 =
      [InitStep.rstPut 1, InitStep.delay 100,
       InitStep.rstPut 0, InitStep.delay 100,
       InitStep.rstPut 1, InitStep.delay 100,
       InitStep.cmd 0x01, InitStep.delay 150,
       InitStep.cmd 0x11, InitStep.delay 120,
       InitStep.cmd 0x3A, InitStep.cmd 0x36, InitStep.cmd 0x20,
       InitStep.cmd 0x29, InitStep.delay 100] :=
  ⟨by decide, by decide, by decide, by decide,
   init_reset_and_delays dispDemo 32000000 (by decide) (by decide)
     (by decide)⟩
